import Mathlib

/-!
Verification of the sport-pal-planner recurring-session, notification and
admin logic against a shallow embedding of the source.

Conventions used throughout:
* Calendar dates are rata-die day numbers (day 1 = 0001-01-01 of the
  proleptic Gregorian calendar).  With this encoding `d % 7` is the
  day-of-week with `0 = Sunday`, which coincides with PostgreSQL
  `EXTRACT(DOW FROM d)`.
* Opaque UUIDs are modelled as `Nat`.
* Nullable SQL columns are modelled as `Option`.
* A plpgsql function that can `RAISE EXCEPTION` is modelled as
  `Except String`; an `Except.error` outcome aborts the enclosing
  statement, so no inserted row survives — the returned state on the
  error side is "unchanged by definition".
-/

/-- Gregorian leap-year test. -/
def isLeapYear (y : Nat) : Bool :=
  (y % 4 == 0 && y % 100 != 0) || y % 400 == 0

/-- Days strictly before month `m` in a year whose leap flag is `leap`. -/
def daysBeforeMonth (leap : Bool) (m : Nat) : Nat :=
  (match m with
   | 1 => 0 | 2 => 31 | 3 => 59 | 4 => 90 | 5 => 120 | 6 => 151
   | 7 => 181 | 8 => 212 | 9 => 243 | 10 => 273 | 11 => 304 | _ => 334)
  + (if leap && m > 2 then 1 else 0)

/-- Rata-die day number of the Gregorian date `y-m-d`
(`toRataDie 1 1 1 = 1`, a Monday; `d % 7 = 0` means Sunday, matching
PostgreSQL `EXTRACT(DOW ...)`). -/
def toRataDie (y m d : Nat) : Nat :=
  365 * (y - 1) + (y - 1) / 4 - (y - 1) / 100 + (y - 1) / 400
    + daysBeforeMonth (isLeapYear y) m + d

/-- A row of `public.sessions`
(`supabase/migrations/...83810` plus the recurrence columns added in the
recurrence migration).  Times of day are minutes since midnight. -/
structure SessionRow where
  id : Nat
  title : String
  description : Option String
  sport_type : String
  location : String
  session_date : Nat
  start_time : Nat
  end_time : Nat
  max_participants : Nat
  created_by : Option Nat
  recurrence_type : String
  recurrence_days : Option (List Nat)
  recurrence_end_date : Option Nat
  parent_session_id : Option Nat
  is_recurring_instance : Bool
  deriving DecidableEq

/-- The `public.sessions` table, with the id the next
`gen_random_uuid()` default is modelled to produce. -/
structure GenDB where
  sessions : List SessionRow
  nextId : Nat
  deriving DecidableEq

/-- SQL `a != b` for a nullable left operand: `NULL != b` is NULL, which
an `IF` treats as false. -/
def sqlNeqOpt (a : Option Nat) (b : Nat) : Bool :=
  match a with
  | some x => x != b
  | none => false

/-- The guard `p_end_date - v_parent.session_date > v_max_period` of
`generate_recurring_sessions` (src/unnamed/part_003 line 38).  In
PostgreSQL `date - date` has type `integer` and no `integer > interval`
operator exists, so evaluating this expression raises error 42883
(`operator does not exist: integer > interval`) instead of comparing the
span against 2 years. -/
def interval_guard : Except String Unit :=
  Except.error "operator does not exist: integer > interval"

/-- The row inserted by the loop body of `generate_recurring_sessions`
for date `d`: the parent's fields are copied, the recurrence fields are
cleared (`'none', NULL, NULL`), `parent_session_id` is the parent id and
`is_recurring_instance` is true. -/
def mkInstanceRow (parent : SessionRow) (pid newId d : Nat) : SessionRow :=
  { id := newId
    title := parent.title
    description := parent.description
    sport_type := parent.sport_type
    location := parent.location
    session_date := d
    start_time := parent.start_time
    end_time := parent.end_time
    max_participants := parent.max_participants
    created_by := parent.created_by
    recurrence_type := "none"
    recurrence_days := none
    recurrence_end_date := none
    parent_session_id := some pid
    is_recurring_instance := true }

/-- Day-of-week match test of the generation loop: daily matches every
day, weekly matches the parent's weekday, custom matches the given
weekday set (`v_day_of_week = ANY(p_recurrence_days)`). -/
def recurrenceMatch (rt : String) (rdays : List Nat) (parentDow dow : Nat) : Bool :=
  rt == "daily" || (rt == "weekly" && dow == parentDow)
    || (rt == "custom" && rdays.contains dow)

/-- The `WHILE v_current_date <= p_end_date AND v_count < 365` loop of
`generate_recurring_sessions` (both versions of the function share this
loop).  `fuel` is `p_end_date + 1 - cur`, so running out of fuel is
exactly the `v_current_date <= p_end_date` exit; `count` is `v_count`;
`nextId` supplies ids for the inserted rows. -/
def genLoop (parent : SessionRow) (pid : Nat) (rt : String) (rdays : List Nat)
    (cur count nextId : Nat) : Nat → List SessionRow
  | 0 => []
  | fuel + 1 =>
    if count < 365 then
      if recurrenceMatch rt rdays (parent.session_date % 7) (cur % 7) then
        mkInstanceRow parent pid nextId cur
          :: genLoop parent pid rt rdays (cur + 1) (count + 1) (nextId + 1) fuel
      else
        genLoop parent pid rt rdays (cur + 1) count nextId fuel
    else []

/-- Body of `generate_recurring_sessions` once the parent row has been
found: reject a caller that is not the creator, then evaluate the 2-year
guard — which, being the ill-typed comparison embedded by
`interval_guard`, raises on every evaluation — and only then the
end-date check, the type check and the insertion loop. -/
def generate_recurring_body (db : GenDB) (auth_uid p_parent_id : Nat)
    (p_recurrence_type : String) (p_recurrence_days : List Nat)
    (p_end_date : Nat) (v_parent : SessionRow) : Except String GenDB :=
  if sqlNeqOpt v_parent.created_by auth_uid then
    Except.error "Only session creator can generate recurring instances"
  else do
    let _ ← interval_guard
    if p_end_date ≤ v_parent.session_date then
      throw "End date must be after session date"
    if !(["daily", "weekly", "custom"].contains p_recurrence_type) then
      throw "Invalid recurrence type"
    let insts := genLoop v_parent p_parent_id p_recurrence_type p_recurrence_days
      (v_parent.session_date + 1) 0 db.nextId
      (p_end_date + 1 - (v_parent.session_date + 1))
    pure { sessions := db.sessions ++ insts, nextId := db.nextId + insts.length }

/-- `public.generate_recurring_sessions` as redefined by the validation
migration (src/unnamed/part_003 lines 11-83, the current version): look
up the parent, silently return when absent, otherwise run the validated
body.  An `Except.error` outcome models the plpgsql exception: the
statement aborts and none of its inserts survive. -/
def generate_recurring_sessions (db : GenDB) (auth_uid p_parent_id : Nat)
    (p_recurrence_type : String) (p_recurrence_days : List Nat)
    (p_end_date : Nat) : Except String GenDB :=
  match db.sessions.find? (fun r => r.id == p_parent_id) with
  | none => Except.ok db
  | some v_parent =>
    generate_recurring_body db auth_uid p_parent_id p_recurrence_type
      p_recurrence_days p_end_date v_parent

/-- `public.delete_future_recurring_sessions` (src/unnamed/part_002
lines 165-176): delete every session whose `parent_session_id` is the
given parent and whose `session_date` is strictly after `CURRENT_DATE`
(passed here as `current_date`). -/
def delete_future_recurring_sessions (db : GenDB) (p_parent_id current_date : Nat) :
    GenDB :=
  { db with
    sessions := db.sessions.filter
      (fun r => !((r.parent_session_id == some p_parent_id)
        && decide (current_date < r.session_date))) }

/-- Number of instance rows of a given parent present in the table. -/
def instanceRowCount (db : GenDB) (pid : Nat) : Nat :=
  db.sessions.countP (fun r => r.parent_session_id == some pid)

/-- A concrete parent session used by the concrete-evaluation theorems:
created by user 7, dated Monday 2026-01-05. -/
def exampleParent : SessionRow :=
  { id := 1
    title := "Football"
    description := none
    sport_type := "football"
    location := "Stade"
    session_date := toRataDie 2026 1 5
    start_time := 600
    end_time := 660
    max_participants := 10
    created_by := some 7
    recurrence_type := "custom"
    recurrence_days := some [1, 3]
    recurrence_end_date := some (toRataDie 2026 1 19)
    parent_session_id := none
    is_recurring_instance := false }

/-- A table holding just the example parent. -/
def exampleDb : GenDB :=
  { sessions := [exampleParent], nextId := 2 }

/-- C1: on the literal example of the claim — parent dated Monday
2026-01-05, type custom, days [1,3], end date 2026-01-19, caller the
creator — the current `generate_recurring_sessions` does not insert the
four matching instances: it raises error 42883 from the ill-typed 2-year
guard before reaching the loop.  The second conjunct records what the
generation loop itself produces when evaluated directly on the same
inputs: exactly the dates 2026-01-07, 2026-01-12, 2026-01-14 and
2026-01-19, as the claim enumerates. -/
theorem recurrence_generation_literal_example :
    generate_recurring_sessions exampleDb 7 1 "custom" [1, 3] (toRataDie 2026 1 19)
        = Except.error "operator does not exist: integer > interval"
    ∧ (genLoop exampleParent 1 "custom" [1, 3] (toRataDie 2026 1 5 + 1) 0 2
          (toRataDie 2026 1 19 + 1 - (toRataDie 2026 1 5 + 1))).map
        (fun r => r.session_date)
      = [toRataDie 2026 1 7, toRataDie 2026 1 12, toRataDie 2026 1 14,
         toRataDie 2026 1 19] :=
  ⟨rfl, rfl⟩

/-- C2: any call to `generate_recurring_sessions` on an existing parent
whose caller is not the creator, or whose end date lies more than 2
years (730 days here) after the parent's date, or whose end date is on
or before the parent's date, ends in `Except.error`, i.e. the plpgsql
exception aborts the statement and no inserted row survives.  A
non-creator caller hits the dedicated creator exception; the two date
conditions are rejected by the error the ill-typed 2-year guard raises
before either date check runs. -/
theorem recurrence_generation_rejections
    (db : GenDB) (uid pid : Nat) (rt : String) (rdays : List Nat) (endD : Nat)
    (parent : SessionRow)
    (hfind : db.sessions.find? (fun r => r.id == pid) = some parent)
    (_hrej : (∃ c, parent.created_by = some c ∧ c ≠ uid)
        ∨ parent.session_date + 730 < endD ∨ endD ≤ parent.session_date) :
    ∃ e, generate_recurring_sessions db uid pid rt rdays endD = Except.error e := by
  unfold generate_recurring_sessions
  rw [hfind]
  show ∃ e, generate_recurring_body db uid pid rt rdays endD parent = Except.error e
  unfold generate_recurring_body
  cases hsql : sqlNeqOpt parent.created_by uid
  · simp only [hsql, Bool.false_eq_true, if_false]
    exact ⟨_, rfl⟩
  · simp only [hsql, if_true]
    exact ⟨_, rfl⟩

/-- Witness for C2 at a concrete input: parent created by user 7, the
call made by user 8 with an end date one week later. -/
theorem recurrence_generation_rejections_witness :
    ∃ e, generate_recurring_sessions exampleDb 8 1 "weekly" []
        (toRataDie 2026 1 12) = Except.error e :=
  recurrence_generation_rejections exampleDb 8 1 "weekly" []
    (toRataDie 2026 1 12) exampleParent rfl
    (Or.inl ⟨7, rfl, by decide⟩)

/-- C5: invoking the current `generate_recurring_sessions` twice with
identical valid-looking arguments (daily rule, one week of matching
dates, caller the creator) does not duplicate instances: each invocation
raises error 42883 from the ill-typed 2-year guard, so the instance
count stays 0 instead of going 7 then 14. -/
theorem recurrence_generation_twice :
    generate_recurring_sessions exampleDb 7 1 "daily" [] (toRataDie 2026 1 12)
        = Except.error "operator does not exist: integer > interval"
    ∧ Except.bind
        (generate_recurring_sessions exampleDb 7 1 "daily" [] (toRataDie 2026 1 12))
        (fun db1 => generate_recurring_sessions db1 7 1 "daily" [] (toRataDie 2026 1 12))
      = Except.error "operator does not exist: integer > interval"
    ∧ instanceRowCount exampleDb 1 = 0 :=
  ⟨rfl, rfl, rfl⟩

/-- C8: `delete_future_recurring_sessions p` retains exactly the rows
that are not future instances of parent `p`: a row survives iff it was
present and does not have both `parent_session_id = p` and a date
strictly after today.  In particular every row of another parent (or
with no parent, such as the parent row itself) survives, and every row
dated today or earlier survives. -/
theorem delete_future_recurring_sessions_exact
    (db : GenDB) (p today : Nat) :
    (∀ r, r ∈ (delete_future_recurring_sessions db p today).sessions ↔
        r ∈ db.sessions ∧ ¬(r.parent_session_id = some p ∧ today < r.session_date))
    ∧ (∀ r ∈ db.sessions, r.parent_session_id ≠ some p →
        r ∈ (delete_future_recurring_sessions db p today).sessions)
    ∧ (∀ r ∈ db.sessions, r.session_date ≤ today →
        r ∈ (delete_future_recurring_sessions db p today).sessions) := by
  refine ⟨?_, ?_, ?_⟩
  · intro r
    simp only [delete_future_recurring_sessions, List.mem_filter,
      Bool.not_eq_eq_eq_not, Bool.not_true, Bool.and_eq_false_imp,
      beq_iff_eq, decide_eq_false_iff_not, Nat.not_lt]
    constructor
    · rintro ⟨h1, h2⟩
      exact ⟨h1, fun hc => Nat.not_lt.mpr (h2 hc.1) hc.2⟩
    · rintro ⟨h1, h2⟩
      exact ⟨h1, fun hp => Nat.not_lt.mp (fun hd => h2 ⟨hp, hd⟩)⟩
  · intro r hr hp
    simp only [delete_future_recurring_sessions]
    rw [List.mem_filter]
    refine ⟨hr, ?_⟩
    simp only [Bool.not_eq_eq_eq_not, Bool.not_true, Bool.and_eq_false_imp,
      beq_iff_eq, decide_eq_false_iff_not, Nat.not_lt]
    exact fun hc => absurd hc hp
  · intro r hr hd
    simp only [delete_future_recurring_sessions]
    rw [List.mem_filter]
    refine ⟨hr, ?_⟩
    simp only [Bool.not_eq_eq_eq_not, Bool.not_true, Bool.and_eq_false_imp,
      beq_iff_eq, decide_eq_false_iff_not, Nat.not_lt]
    exact fun _ => hd

/-- Witness for C8: the parent row itself (no `parent_session_id`)
survives the cleanup run with today = 2026-01-10. -/
theorem delete_future_recurring_sessions_witness :
    exampleParent ∈
      (delete_future_recurring_sessions exampleDb 1 (toRataDie 2026 1 10)).sessions :=
  (delete_future_recurring_sessions_exact exampleDb 1 (toRataDie 2026 1 10)).2.1
    exampleParent (by simp [exampleDb]) (by decide)

/-- A row of `public.bookings` as read by the reminder dispatcher
(`id, user_id` plus the `reminder_sent` flag and the session link). -/
structure RBooking where
  id : Nat
  user_id : Nat
  session_id : Nat
  reminder_sent : Bool
  deriving DecidableEq

/-- A row of `public.sessions` as read by the reminder dispatcher
(`id, title, start_time, location, sport_type` plus `session_date`,
which the query filters on). -/
structure RSession where
  id : Nat
  title : String
  start_time : Nat
  location : String
  sport_type : String
  session_date : Nat
  deriving DecidableEq

/-- A notification row as inserted by the reminder dispatcher. -/
structure RNotif where
  user_id : Nat
  type : String
  session_id : Option Nat
  session_title : Option String
  message : String
  deriving DecidableEq

/-- The slice of database state the reminder dispatcher touches. -/
structure RemState where
  sessions : List RSession
  bookings : List RBooking
  notifications : List RNotif
  deriving DecidableEq

/-- The JSON body the dispatcher responds with; `none` means the field
is absent from the object the handler builds. -/
structure RemBody where
  message : Option String
  reminders_sent : Option Nat
  sessions_checked : Option Nat
  error : Option String
  deriving DecidableEq

/-- The window filter of the dispatcher's session query
(`session_date = today AND start_time BETWEEN targetTimeMin AND
targetTimeMax`); the three bounds are the values the handler derives
from the clock. -/
def inWindow (today tMin tMax : Nat) (s : RSession) : Bool :=
  (s.session_date == today) && decide (tMin ≤ s.start_time)
    && decide (s.start_time ≤ tMax)

/-- The notification built for one pending booking
(`type: 'session_reminder'`, addressed to the booking's user). -/
def mkReminder (s : RSession) (b : RBooking) : RNotif :=
  { user_id := b.user_id
    type := "session_reminder"
    session_id := some s.id
    session_title := some s.title
    message := "Rappel : votre seance " ++ s.title
      ++ " commence dans 1h - " ++ s.location }

/-- Running accumulator of the dispatcher's per-session loop:
the evolving state plus `totalRemindersSent`. -/
structure RemAcc where
  state : RemState
  total : Nat
  deriving DecidableEq

/-- One iteration of the dispatcher's `for (const session of sessions)`
loop (src/supabase/functions/session-reminders/index.ts lines 67-117):
fetch the session's bookings with `reminder_sent = false`; if none,
continue; otherwise insert one `session_reminder` notification per such
booking, then set `reminder_sent = true` on exactly those booking ids
and add their number to the running total.  Storage errors (the
`continue` branches) are not modelled: the claims quantify over runs
that complete. -/
def processSession (acc : RemAcc) (s : RSession) : RemAcc :=
  let pending := acc.state.bookings.filter
    (fun b => (b.session_id == s.id) && (b.reminder_sent == false))
  if pending.isEmpty then acc
  else
    let ids := pending.map (fun b => b.id)
    { state :=
        { acc.state with
          notifications := acc.state.notifications ++ pending.map (mkReminder s)
          bookings := acc.state.bookings.map
            (fun b => if ids.contains b.id then { b with reminder_sent := true } else b) }
      total := acc.total + pending.length }

/-- The reminder dispatch endpoint
(src/supabase/functions/session-reminders/index.ts): query the sessions
in the window; when none, respond `{message, reminders_sent: 0}` and
change nothing; otherwise run the per-session loop and respond
`{message, reminders_sent, sessions_checked}`. -/
def run_session_reminders (today tMin tMax : Nat) (st : RemState) :
    RemBody × RemState :=
  let sessions := st.sessions.filter (inWindow today tMin tMax)
  if sessions.isEmpty then
    ({ message := some "No sessions to remind"
       reminders_sent := some 0
       sessions_checked := none
       error := none }, st)
  else
    let acc := sessions.foldl processSession { state := st, total := 0 }
    ({ message := some "Session reminders processed"
       reminders_sent := some acc.total
       sessions_checked := some sessions.length
       error := none }, acc.state)

/-- Number of `session_reminder` notifications held by user `u` for
session `sid`. -/
def reminderCount (st : RemState) (u sid : Nat) : Nat :=
  st.notifications.countP
    (fun n => (n.type == "session_reminder") && (n.user_id == u)
      && (n.session_id == some sid))

/-- Number of booking rows of user `u` on session `sid` whose reminder
flag is still unset. -/
def unremindedCount (st : RemState) (u sid : Nat) : Nat :=
  st.bookings.countP
    (fun b => (b.user_id == u) && (b.session_id == sid)
      && (b.reminder_sent == false))

/-- Number of booking rows of user `u` on session `sid` (the bookings
table has a UNIQUE (session_id, user_id) constraint, so a well-formed
state has at most one). -/
def bookingCount (st : RemState) (u sid : Nat) : Nat :=
  st.bookings.countP (fun b => (b.user_id == u) && (b.session_id == sid))

/-- Helper: `countP` is monotone under pointwise implication on the
members of the list. -/
theorem countP_imp_le {α : Type} (l : List α) (p q : α → Bool)
    (h : ∀ a ∈ l, p a = true → q a = true) : l.countP p ≤ l.countP q := by
  induction l with
  | nil => simp
  | cons a l ih =>
    rw [List.countP_cons, List.countP_cons]
    have hl := ih (fun x hx => h x (List.mem_cons_of_mem a hx))
    by_cases hpa : p a = true
    · have := h a (List.mem_cons_self a l) hpa
      simp [hpa, this]
      omega
    · simp [hpa]
      split <;> omega

/-- Helper: the dispatcher invariant measure for one (user, session)
pair — reminder notifications held plus unreminded booking rows.  Each
reminder the dispatcher inserts flips the flag of the booking row that
produced it, so this sum never grows. -/
def remMeasure (st : RemState) (u sid : Nat) : Nat :=
  reminderCount st u sid + unremindedCount st u sid

/-- Helper: one iteration of the dispatcher loop does not increase
`remMeasure`: the reminders it inserts for a window session are matched
one-for-one by unreminded bookings of that session whose flag it sets in
the same iteration. -/
theorem processSession_measure (acc : RemAcc) (s : RSession) (u sid : Nat) :
    remMeasure (processSession acc s).state u sid ≤ remMeasure acc.state u sid := by
  unfold processSession
  set pending := acc.state.bookings.filter
    (fun b => (b.session_id == s.id) && (b.reminder_sent == false)) with hpend
  by_cases hemp : pending.isEmpty
  · simp [hemp]
  · simp only [hemp, Bool.false_eq_true, if_false]
    unfold remMeasure reminderCount unremindedCount
    simp only [List.countP_append]
    set ids := pending.map (fun b => b.id) with hids
    have hmono : (acc.state.bookings.map
          (fun b => if ids.contains b.id then { b with reminder_sent := true } else b)).countP
        (fun b => (b.user_id == u) && (b.session_id == sid)
          && (b.reminder_sent == false))
        ≤ acc.state.bookings.countP
          (fun b => (b.user_id == u) && (b.session_id == sid)
            && (b.reminder_sent == false)) := by
      rw [List.countP_map]
      apply countP_imp_le
      intro b _ hb
      simp only [Function.comp_apply] at hb
      by_cases hc : ids.contains b.id = true
      · rw [if_pos hc] at hb
        simp at hb
      · rw [if_neg hc] at hb
        exact hb
    by_cases hs : s.id = sid
    · subst hs
      have hA : (pending.map (mkReminder s)).countP
          (fun n => (n.type == "session_reminder") && (n.user_id == u)
            && (n.session_id == some s.id))
          ≤ acc.state.bookings.countP
            (fun b => (b.user_id == u) && (b.session_id == s.id)
              && (b.reminder_sent == false)) := by
        rw [List.countP_map, hpend, List.countP_filter]
        apply countP_imp_le
        intro b _ hb
        simp only [Function.comp_apply, mkReminder, Bool.and_eq_true, beq_iff_eq]
          at hb
        simp only [Bool.and_eq_true, beq_iff_eq]
        tauto
      have hB : (acc.state.bookings.map
            (fun b => if ids.contains b.id then { b with reminder_sent := true } else b)).countP
          (fun b => (b.user_id == u) && (b.session_id == s.id)
            && (b.reminder_sent == false)) = 0 := by
        rw [List.countP_map]
        apply List.countP_eq_zero.mpr
        intro b hb
        simp only [Function.comp_apply]
        by_cases hc : ids.contains b.id = true
        · rw [if_pos hc]
          simp
        · rw [if_neg hc]
          intro hcontra
          simp only [Bool.and_eq_true, beq_iff_eq] at hcontra
          obtain ⟨⟨hu, hsid⟩, hflag⟩ := hcontra
          apply hc
          rw [hids]
          simp only [List.contains_eq_any_beq, List.any_eq_true]
          refine ⟨b.id, List.mem_map_of_mem _ ?_, by simp⟩
          rw [hpend, List.mem_filter]
          exact ⟨hb, by simp [hsid, hflag]⟩
      rw [hB]
      omega
    · have hA : (pending.map (mkReminder s)).countP
          (fun n => (n.type == "session_reminder") && (n.user_id == u)
            && (n.session_id == some sid)) = 0 := by
        apply List.countP_eq_zero.mpr
        intro n hn
        obtain ⟨b, _, rfl⟩ := List.mem_map.mp hn
        simp [mkReminder, hs]
      rw [hA]
      omega

/-- Helper: the whole per-session loop does not increase `remMeasure`. -/
theorem foldl_processSession_measure (ss : List RSession) (acc : RemAcc) (u sid : Nat) :
    remMeasure (ss.foldl processSession acc).state u sid ≤ remMeasure acc.state u sid := by
  induction ss generalizing acc with
  | nil => exact Nat.le_refl _
  | cons s ss ih =>
    exact Nat.le_trans (ih (processSession acc s)) (processSession_measure acc s u sid)

/-- Helper: one complete dispatcher run does not increase `remMeasure`,
whatever window it is given. -/
theorem run_session_reminders_measure (today tMin tMax : Nat) (st : RemState) (u sid : Nat) :
    remMeasure (run_session_reminders today tMin tMax st).2 u sid
      ≤ remMeasure st u sid := by
  unfold run_session_reminders
  by_cases h : (st.sessions.filter (inWindow today tMin tMax)).isEmpty
  · simp [h]
  · simp only [h, Bool.false_eq_true, if_false]
    exact foldl_processSession_measure _ _ u sid

/-- C3: starting from a state with at most one booking row per
(user, session) — the UNIQUE (session_id, user_id) constraint — and no
`session_reminder` notification yet for that pair, two completed
dispatcher runs over any (equal, overlapping or different) windows leave
at most one `session_reminder` notification for the pair: the first run
flips `reminder_sent` on every booking it notifies, and both runs select
only bookings with the flag unset. -/
theorem session_reminders_at_most_once
    (t1 a1 b1 t2 a2 b2 u sid : Nat) (st : RemState)
    (huniq : bookingCount st u sid ≤ 1)
    (hnone : reminderCount st u sid = 0) :
    reminderCount
      (run_session_reminders t2 a2 b2 (run_session_reminders t1 a1 b1 st).2).2 u sid
      ≤ 1 := by
  have h1 := run_session_reminders_measure t1 a1 b1 st u sid
  have h2 := run_session_reminders_measure t2 a2 b2
    (run_session_reminders t1 a1 b1 st).2 u sid
  have h3 : unremindedCount st u sid ≤ bookingCount st u sid := by
    apply countP_imp_le
    intro b _ hb
    simp only [Bool.and_eq_true] at hb ⊢
    exact ⟨hb.1.1, hb.1.2⟩
  unfold remMeasure at h1 h2
  unfold bookingCount at huniq h3
  unfold reminderCount unremindedCount at *
  omega

/-- A concrete dispatcher state: one session in the window of the
concrete runs below, one unreminded booking by user 3 on it. -/
def exampleRemState : RemState :=
  { sessions := [{ id := 5, title := "Foot", start_time := 100, location := "Stade",
                   sport_type := "football", session_date := 50 }]
    bookings := [{ id := 9, user_id := 3, session_id := 5, reminder_sent := false }]
    notifications := [] }

/-- Witness for C3: running the dispatcher twice over the same window on
the concrete state leaves at most one reminder for booking (3, 5). -/
theorem session_reminders_at_most_once_witness :
    reminderCount
      (run_session_reminders 50 90 110
        (run_session_reminders 50 90 110 exampleRemState).2).2 3 5 ≤ 1 :=
  session_reminders_at_most_once 50 90 110 50 90 110 3 5 exampleRemState
    (by decide) (by decide)

/-- C9 (amended): a run that finds at least one session in the window
responds with both `reminders_sent` and `sessions_checked`; a run that
finds none responds with `reminders_sent = 0` but omits
`sessions_checked` (its body is `{message, reminders_sent: 0}` only). -/
theorem reminder_response_shape (today tMin tMax : Nat) (st : RemState) :
    ((st.sessions.filter (inWindow today tMin tMax)).isEmpty = false →
      (run_session_reminders today tMin tMax st).1.reminders_sent.isSome = true
      ∧ (run_session_reminders today tMin tMax st).1.sessions_checked.isSome = true)
    ∧ ((st.sessions.filter (inWindow today tMin tMax)).isEmpty = true →
      (run_session_reminders today tMin tMax st).1.reminders_sent = some 0
      ∧ (run_session_reminders today tMin tMax st).1.sessions_checked = none) := by
  unfold run_session_reminders
  by_cases h : (st.sessions.filter (inWindow today tMin tMax)).isEmpty
  · simp [h]
  · simp [h]

/-- Witness for C9's amended theorem: on the concrete one-session state
both summary fields are present. -/
theorem reminder_response_shape_witness :
    (run_session_reminders 50 90 110 exampleRemState).1.reminders_sent.isSome = true
    ∧ (run_session_reminders 50 90 110 exampleRemState).1.sessions_checked.isSome = true :=
  (reminder_response_shape 50 90 110 exampleRemState).1 (by decide)

/-- A dispatcher state with no session at all. -/
def emptyRemState : RemState :=
  { sessions := [], bookings := [], notifications := [] }

/-- Counterexample to C9 as stated: the non-erroring zero-session
invocation responds without a `sessions_checked` field (the source
builds `{message: 'No sessions to remind', reminders_sent: 0}` in that
branch). -/
theorem reminder_zero_sessions_counterexample :
    (run_session_reminders 50 90 110 emptyRemState).1.error = none
    ∧ (run_session_reminders 50 90 110 emptyRemState).1.reminders_sent = some 0
    ∧ (run_session_reminders 50 90 110 emptyRemState).1.sessions_checked = none :=
  ⟨rfl, rfl, rfl⟩

/-- A row of `public.sessions` as the notification triggers read it. -/
structure TSession where
  id : Nat
  title : String
  created_by : Option Nat
  deriving DecidableEq

/-- A row of `public.bookings` as the notification triggers read it. -/
structure TBooking where
  user_id : Nat
  session_id : Nat
  deriving DecidableEq

/-- A row of `public.profiles` as the notification triggers read it. -/
structure TProfile where
  user_id : Nat
  full_name : Option String
  email : String
  deriving DecidableEq

/-- The tuple a notification trigger INSERTs.  `user_id` is `Option`
because the trigger inserts whatever expression it computed; the table
column is NOT NULL, so inserting `none` would violate the constraint. -/
structure TNotif where
  user_id : Option Nat
  type : String
  session_id : Option Nat
  actor_id : Option Nat
  actor_name : Option String
  session_title : Option String
  message : Option String
  deriving DecidableEq

/-- `COALESCE(full_name, email)` over an optionally-found profile row:
NULL when no row was found. -/
def coalesceName (p : Option TProfile) : Option String :=
  match p with
  | some prof => some (prof.full_name.getD prof.email)
  | none => none

/-- `public.notify_booking_created` (migration ...144521 lines 50-89):
look up the booked session; return without inserting when the creator
books their own session or `created_by IS NULL` (which also covers a
missing session row); otherwise insert one `booking_created`
notification for the creator. -/
def booking_created_body (profiles : List TProfile) (new : TBooking)
    (v_session : TSession) : List TNotif :=
  if (v_session.created_by == some new.user_id) || (v_session.created_by == none) then
    []
  else
    let nm := coalesceName (profiles.find? (fun p => p.user_id == new.user_id))
    [{ user_id := v_session.created_by
       type := "booking_created"
       session_id := some v_session.id
       actor_id := some new.user_id
       actor_name := nm
       session_title := some v_session.title
       message := nm.map
         (fun x => x ++ " est inscrit(e) a votre seance " ++ v_session.title) }]

def notify_booking_created (sessions : List TSession) (profiles : List TProfile)
    (new : TBooking) : List TNotif :=
  match sessions.find? (fun s => s.id == new.session_id) with
  | none => []
  | some v_session => booking_created_body profiles new v_session

/-- `public.notify_booking_cancelled` (migration ...144521 lines
92-131): same shape as `notify_booking_created`, on booking delete. -/
def booking_cancelled_body (profiles : List TProfile) (old : TBooking)
    (v_session : TSession) : List TNotif :=
  if (v_session.created_by == some old.user_id) || (v_session.created_by == none) then
    []
  else
    let nm := coalesceName (profiles.find? (fun p => p.user_id == old.user_id))
    [{ user_id := v_session.created_by
       type := "booking_cancelled"
       session_id := some v_session.id
       actor_id := some old.user_id
       actor_name := nm
       session_title := some v_session.title
       message := nm.map
         (fun x => x ++ " a annule sa reservation pour " ++ v_session.title) }]

def notify_booking_cancelled (sessions : List TSession) (profiles : List TProfile)
    (old : TBooking) : List TNotif :=
  match sessions.find? (fun s => s.id == old.session_id) with
  | none => []
  | some v_session => booking_cancelled_body profiles old v_session

/-- `public.notify_session_cancelled` (migration ...144521 lines
179-212), fired BEFORE DELETE on sessions: for every booking on the
deleted session whose user differs from `OLD.created_by` (SQL `!=`, so
no row qualifies when `created_by` is NULL), insert one
`session_cancelled` notification addressed to that user. -/
def notify_session_cancelled (old : TSession) (profiles : List TProfile)
    (bookings : List TBooking) : List TNotif :=
  let orgName := coalesceName
    (match old.created_by with
     | some c => profiles.find? (fun p => p.user_id == c)
     | none => none)
  (bookings.filter
      (fun b => (b.session_id == old.id) && sqlNeqOpt old.created_by b.user_id)).map
    (fun b =>
      { user_id := some b.user_id
        type := "session_cancelled"
        session_id := none
        actor_id := old.created_by
        actor_name := orgName
        session_title := some old.title
        message := some ("La seance " ++ old.title
          ++ " a ete annulee par son organisateur") })

/-- Helper: `countP` of a predicate splits along any second
predicate. -/
theorem countP_split {α : Type} (l : List α) (p q : α → Bool) :
    l.countP p
      = l.countP (fun a => p a && q a) + l.countP (fun a => p a && !q a) := by
  induction l with
  | nil => simp
  | cons a l ih =>
    rw [List.countP_cons, List.countP_cons, List.countP_cons]
    by_cases hpa : p a = true
    · by_cases hqa : q a = true
      · simp [hpa, hqa]
        omega
      · simp [hpa, hqa]
        omega
    · simp [hpa]
      omega

/-- C4: when the deleted session has a (non-null) creator `c`, the
trigger emits exactly one notification per booking on that session whose
user is not `c` — count `N - (own bookings of c)` — each addressed to
the booked user; a session with no bookings yields no notification. -/
theorem session_cancelled_notifications
    (old : TSession) (profiles : List TProfile) (bookings : List TBooking)
    (c : Nat) (hc : old.created_by = some c) :
    (notify_session_cancelled old profiles bookings).length
      = (bookings.filter (fun b => b.session_id == old.id)).length
        - (bookings.filter
            (fun b => (b.session_id == old.id) && (b.user_id == c))).length
    ∧ (∀ n ∈ notify_session_cancelled old profiles bookings,
        ∃ b ∈ bookings, b.session_id = old.id ∧ b.user_id ≠ c
          ∧ n.user_id = some b.user_id)
    ∧ (bookings.filter (fun b => b.session_id == old.id) = [] →
        notify_session_cancelled old profiles bookings = []) := by
  refine ⟨?_, ?_, ?_⟩
  · unfold notify_session_cancelled
    rw [List.length_map]
    rw [← List.countP_eq_length_filter, ← List.countP_eq_length_filter,
      ← List.countP_eq_length_filter]
    rw [countP_split bookings (fun b => b.session_id == old.id)
      (fun b => b.user_id == c)]
    have heq : bookings.countP
        (fun b => (b.session_id == old.id) && sqlNeqOpt old.created_by b.user_id)
        = bookings.countP
          (fun b => (b.session_id == old.id) && !(b.user_id == c)) := by
      apply List.countP_congr
      intro b _
      rw [hc]
      by_cases hu : b.user_id = c
      · simp [sqlNeqOpt, hu]
      · simp [sqlNeqOpt, hu, Ne.symm hu]
    rw [heq]
    omega
  · intro n hn
    unfold notify_session_cancelled at hn
    obtain ⟨b, hb, rfl⟩ := List.mem_map.mp hn
    rw [List.mem_filter] at hb
    obtain ⟨hbmem, hbpred⟩ := hb
    simp only [Bool.and_eq_true, beq_iff_eq] at hbpred
    refine ⟨b, hbmem, hbpred.1, ?_, rfl⟩
    rw [hc] at hbpred
    simp [sqlNeqOpt] at hbpred
    exact fun h => hbpred.2 h.symm
  · intro hempty
    unfold notify_session_cancelled
    rw [List.map_eq_nil_iff]
    rw [List.filter_eq_nil_iff] at hempty ⊢
    intro b hb
    simp only [Bool.and_eq_true, not_and]
    intro hsess
    exact absurd hsess (hempty b hb)

/-- C10: when the booked session's `created_by` is NULL (creator
account deleted; the schema declares `ON DELETE SET NULL`), both booking
triggers return before inserting anything; and every notification either
trigger does insert carries a non-null recipient, so the NOT NULL
constraint on `notifications.user_id` is unreachable from them. -/
theorem booking_triggers_null_creator :
    (∀ sessions profiles b s,
        sessions.find? (fun x => x.id == b.session_id) = some s →
        s.created_by = none →
        notify_booking_created sessions profiles b = []
        ∧ notify_booking_cancelled sessions profiles b = [])
    ∧ (∀ sessions profiles b n,
        n ∈ notify_booking_created sessions profiles b → n.user_id ≠ none)
    ∧ (∀ sessions profiles b n,
        n ∈ notify_booking_cancelled sessions profiles b → n.user_id ≠ none) := by
  refine ⟨?_, ?_, ?_⟩
  · intro sessions profiles b s hfind hnull
    constructor
    · unfold notify_booking_created
      rw [hfind]
      show booking_created_body profiles b s = []
      unfold booking_created_body
      simp [hnull]
    · unfold notify_booking_cancelled
      rw [hfind]
      show booking_cancelled_body profiles b s = []
      unfold booking_cancelled_body
      simp [hnull]
  · intro sessions profiles b n hn
    unfold notify_booking_created at hn
    cases hfind : sessions.find? (fun x => x.id == b.session_id) with
    | none =>
      rw [hfind] at hn
      simp at hn
    | some s =>
      rw [hfind] at hn
      have hn2 : n ∈ booking_created_body profiles b s := hn
      unfold booking_created_body at hn2
      by_cases hcond : ((s.created_by == some b.user_id) || (s.created_by == none)) = true
      · rw [if_pos hcond] at hn2
        simp at hn2
      · rw [if_neg hcond] at hn2
        simp only [List.mem_singleton] at hn2
        rw [hn2]
        simp only [Bool.or_eq_true, beq_iff_eq, not_or] at hcond
        simpa using hcond.2
  · intro sessions profiles b n hn
    unfold notify_booking_cancelled at hn
    cases hfind : sessions.find? (fun x => x.id == b.session_id) with
    | none =>
      rw [hfind] at hn
      simp at hn
    | some s =>
      rw [hfind] at hn
      have hn2 : n ∈ booking_cancelled_body profiles b s := hn
      unfold booking_cancelled_body at hn2
      by_cases hcond : ((s.created_by == some b.user_id) || (s.created_by == none)) = true
      · rw [if_pos hcond] at hn2
        simp at hn2
      · rw [if_neg hcond] at hn2
        simp only [List.mem_singleton] at hn2
        rw [hn2]
        simp only [Bool.or_eq_true, beq_iff_eq, not_or] at hcond
        simpa using hcond.2

/-- A session whose creator account has been deleted. -/
def orphanSession : TSession := { id := 4, title := "Tennis", created_by := none }

/-- Witness for C10: booking insert and booking delete on the orphaned
session produce no notification. -/
theorem booking_triggers_null_creator_witness :
    notify_booking_created [orphanSession] [] { user_id := 3, session_id := 4 } = []
    ∧ notify_booking_cancelled [orphanSession] [] { user_id := 3, session_id := 4 } = [] :=
  booking_triggers_null_creator.1 [orphanSession] []
    { user_id := 3, session_id := 4 } orphanSession (by decide) rfl

/-- A session created by user 2. -/
def creatorSession : TSession := { id := 4, title := "Tennis", created_by := some 2 }

/-- Bookings: the creator and user 3 on session 4, plus an unrelated
booking on session 9. -/
def exampleTBookings : List TBooking :=
  [{ user_id := 2, session_id := 4 }, { user_id := 3, session_id := 4 },
   { user_id := 6, session_id := 9 }]

/-- Witness for C4: deleting session 4 (two bookings, one of them the
creator's own) notifies exactly one user. -/
theorem session_cancelled_notifications_witness :
    (notify_session_cancelled creatorSession [] exampleTBookings).length
      = (exampleTBookings.filter (fun b => b.session_id == creatorSession.id)).length
        - (exampleTBookings.filter
            (fun b => (b.session_id == creatorSession.id) && (b.user_id == 2))).length
    ∧ (∀ n ∈ notify_session_cancelled creatorSession [] exampleTBookings,
        ∃ b ∈ exampleTBookings, b.session_id = creatorSession.id ∧ b.user_id ≠ 2
          ∧ n.user_id = some b.user_id)
    ∧ (exampleTBookings.filter (fun b => b.session_id == creatorSession.id) = [] →
        notify_session_cancelled creatorSession [] exampleTBookings = []) :=
  session_cancelled_notifications creatorSession [] exampleTBookings 2 rfl

/-- The slice of state the admin user-management handler mutates:
identity-service accounts, `public.profiles` rows as (user, email)
pairs, and `public.user_roles` rows as (user, role) pairs. -/
structure AdminState where
  users : List Nat
  profiles : List (Nat × String)
  user_roles : List (Nat × String)
  deriving DecidableEq

/-- Parsed request body of the action-based admin handler
(src/unnamed/part_000, second handler, lines 271-519). -/
structure AdminBody where
  action : String
  userId : Option Nat
  email : Option String
  roles : Option (List String)
  deriving DecidableEq

/-- The action dispatch of the admin user-management handler for an
authenticated caller already verified to hold the admin role (the
claims under verification concern only this portion): `list` reads,
`delete` cascades account deletion (guarded against self-deletion),
`updateEmail` mutates the profile's cached email, `updateRoles`
replaces the target's role set (guarded against stripping one's own
admin role).  The result is the HTTP status plus the new state. -/
def admin_users_action (caller : Nat) (body : AdminBody) (st : AdminState) :
    Nat × AdminState :=
  if body.action == "list" then (200, st)
  else if body.action == "delete" then
    match body.userId with
    | none => (400, st)
    | some target =>
      if target == caller then (400, st)
      else
        (200,
         { users := st.users.filter (fun u => u != target),
           profiles := st.profiles.filter (fun p => p.1 != target),
           user_roles := st.user_roles.filter (fun r => r.1 != target) })
  else if body.action == "updateEmail" then
    match body.userId, body.email with
    | some target, some email =>
      (200, { st with profiles :=
                st.profiles.map (fun p => if p.1 == target then (p.1, email) else p) })
    | _, _ => (400, st)
  else if body.action == "updateRoles" then
    match body.userId, body.roles with
    | some target, some roles =>
      if target == caller && !(roles.contains "admin") then (400, st)
      else
        (200, { st with user_roles :=
            st.user_roles.filter (fun r => r.1 != target)
              ++ roles.map (fun role => (target, role)) })
    | _, _ => (400, st)
  else (405, st)

/-- C6: for an admin-authenticated caller, a `delete` whose target is
the caller, and an `updateRoles` whose target is the caller with a role
list that does not contain admin, both return status 400 with the state
— accounts, profiles and role rows — unchanged. -/
theorem admin_self_guards (caller : Nat) (st : AdminState) (em : Option String)
    (roles : List String) (hroles : roles.contains "admin" = false) :
    admin_users_action caller
        { action := "delete", userId := some caller, email := em, roles := none } st
      = (400, st)
    ∧ admin_users_action caller
        { action := "updateRoles", userId := some caller, email := em,
          roles := some roles } st
      = (400, st) := by
  constructor
  · unfold admin_users_action
    simp
  · unfold admin_users_action
    have h2 : "admin" ∉ roles := by simpa using hroles
    simp [h2]

/-- Witness for C6: admin 7 cannot delete themself nor demote themself
to plain member. -/
theorem admin_self_guards_witness :
    admin_users_action 7
        { action := "delete", userId := some 7, email := none, roles := none }
        { users := [7, 8], profiles := [], user_roles := [(7, "admin")] }
      = (400, { users := [7, 8], profiles := [], user_roles := [(7, "admin")] })
    ∧ admin_users_action 7
        { action := "updateRoles", userId := some 7, email := none,
          roles := some ["member"] }
        { users := [7, 8], profiles := [], user_roles := [(7, "admin")] }
      = (400, { users := [7, 8], profiles := [], user_roles := [(7, "admin")] }) :=
  admin_self_guards 7
    { users := [7, 8], profiles := [], user_roles := [(7, "admin")] }
    none ["member"] (by decide)

/-- Kernel-evaluable model of the JS `.toLowerCase()` applied to the
invite email: lower-case every character. -/
def lowerStr (s : String) : String := String.mk (s.data.map Char.toLower)

/-- A row of `public.invites`: `email` is UNIQUE, `invite_code` is the
randomly generated code stored at creation. -/
structure InviteRow where
  email : String
  invite_code : String
  used : Bool
  invited_by : Nat
  deriving DecidableEq

/-- State read and written by the invite branch. -/
structure InvState where
  profiles : List (Nat × String)
  invites : List InviteRow
  deriving DecidableEq

/-- Response of the invite branch; `linkType` is the JSON `type`
field. -/
structure InvResp where
  status : Nat
  success : Bool
  inviteCode : Option String
  message : Option String
  linkType : Option String
  deriving DecidableEq

/-- The POST (invite) branch of the legacy admin handler
(src/unnamed/part_000 lines 169-253) for an authenticated admin caller:
require an email; if a profile with that email exists, trigger the
credential-recovery flow; otherwise insert an invite for the lowercased
email — when a row with that email already exists the insert fails with
unique-violation 23505 and the handler fetches and returns the stored
code instead; on a fresh insert the generated `newCode` is stored and
returned. -/
def admin_users_invite (caller : Nat) (email : Option String) (newCode : String)
    (st : InvState) : InvResp × InvState :=
  match email with
  | none =>
    ({ status := 400, success := false, inviteCode := none,
       message := some "email requis", linkType := none }, st)
  | some e =>
    match st.profiles.find? (fun p => p.2 == e) with
    | some _ =>
      ({ status := 200, success := true, inviteCode := none,
         message := some "Lien de reinitialisation envoye",
         linkType := some "recovery" }, st)
    | none =>
      match st.invites.find? (fun i => i.email == lowerStr e) with
      | some existingInvite =>
        ({ status := 200, success := true,
           inviteCode := some existingInvite.invite_code,
           message := some "Invitation existante recuperee",
           linkType := some "invite" }, st)
      | none =>
        ({ status := 200, success := true, inviteCode := some newCode,
           message := some "Nouvelle invitation creee",
           linkType := some "invite" },
         { st with invites := st.invites
             ++ [{ email := lowerStr e, invite_code := newCode,
                   used := false, invited_by := caller }] })

/-- C7: inviting an email with no profile but an existing pending
invite row succeeds (status 200) and returns the stored invite code of
that row, leaving the invites table unchanged — the unique-violation
path fetches rather than fails or duplicates. -/
theorem invite_existing_email_returns_stored_code
    (caller : Nat) (e newCode : String) (st : InvState) (inv : InviteRow)
    (hprof : st.profiles.find? (fun p => p.2 == e) = none)
    (hinv : st.invites.find? (fun i => i.email == lowerStr e) = some inv)
    (_hpending : inv.used = false) :
    (admin_users_invite caller (some e) newCode st).1.status = 200
    ∧ (admin_users_invite caller (some e) newCode st).1.success = true
    ∧ (admin_users_invite caller (some e) newCode st).1.inviteCode
        = some inv.invite_code
    ∧ (admin_users_invite caller (some e) newCode st).2 = st := by
  simp [admin_users_invite, hprof, hinv]

/-- A pending invite for amy@example.com with code c0de. -/
def exampleInvite : InviteRow :=
  { email := "amy@example.com", invite_code := "c0de", used := false, invited_by := 7 }

/-- Witness for C7: re-inviting Amy@example.com (profile absent, invite
pending) returns the stored code, not the fresh one. -/
theorem invite_existing_email_witness :
    (admin_users_invite 7 (some "Amy@example.com") "fresh"
        { profiles := [(3, "bob@example.com")], invites := [exampleInvite] }).1.inviteCode
      = some "c0de" :=
  (invite_existing_email_returns_stored_code 7 "Amy@example.com" "fresh"
    { profiles := [(3, "bob@example.com")], invites := [exampleInvite] }
    exampleInvite (by decide) (by decide) rfl).2.2.1
